import Mathlib

/-!
Verification of the FAIR risk simulation engine.

This file gives a shallow embedding, over the rationals, of the Monte Carlo
risk engine found in `fair_risk_calculator.py` (class `FAIRRiskCalculator`),
of the Streamlit variant in `fair_risk_app.py` (class `FAIRCalculator`) and
of the simplified variant in `quick_risk_analysis.py` (class
`QuickRiskAnalyzer`).  Python floats are modelled as `ℚ`; the global numpy
random generator is modelled as a natural-number state threaded through the
computation, with the actual distribution draws abstracted as pure functions
of the distribution parameters and the state (a faithful rendering of the
fact that `np.random` is a deterministic pseudo-random generator: the value
drawn is a function of the parameters and the generator state, and drawing
advances the state).  `np.random.seed s` sets the state to a value determined
by `s` alone, modelled as the state becoming `s`.
-/

namespace FAIR

/-- Abstract pseudo-random draw primitives.  `beta a b s` is the value
`np.random.beta(a, b)` would return with the global generator in state `s`;
`triangular lo m hi s` likewise for `np.random.triangular`.  Both are pure
functions of parameters and state, matching numpy determinism. -/
structure RandomPrims where
  beta : ℚ → ℚ → ℕ → ℚ
  triangular : ℚ → ℚ → ℚ → ℕ → ℚ

/-- Three-point (low / most likely / high) estimate, as stored in a scenario
dictionary entry such as `scenario['tef']`. -/
structure Estimate where
  low : ℚ
  medium : ℚ
  high : ℚ
deriving DecidableEq

/-- Scenario record built by `FAIRRiskCalculator.add_scenario`. -/
structure Scenario where
  id : String
  description : String
  tef : Estimate
  vulnerability : Estimate
  loss_magnitude : Estimate
  asset : String
  threat_actor : String
  loss_effect : String
  notes : String
deriving DecidableEq

/-- Tags for the individual validation messages appended to
`validation_errors` in `FAIRRiskCalculator.add_scenario` (lines 95-131).
The source appends six formatted message strings; each tag stands for one of
them. -/
inductive ValidationRule
  | tefOrder
  | vulnOrder
  | vulnBounds
  | lossOrder
  | tefNonneg
  | lossNonneg
deriving DecidableEq

/-- Error values raised by the engine (`ValueError` in the source, with the
message identifying the failure). -/
inductive SimError
  | iterationsTooLow
  | iterationsTooHigh
  | validationFailed (scenario_id : String) (errs : List ValidationRule)
  | pertOrder (low medium high : ℚ)
  | triangularOrder (low medium high : ℚ)
  | scenarioNotFound (scenario_id : String)
  | invalidDistribution (dist : String)
deriving DecidableEq

/-- Validation performed by `add_scenario` (fair_risk_calculator.py lines
95-131): six independent checks, each appending its message to the list when
violated; no check short-circuits any other.  The same six checks appear in
`quick_risk_analysis.py` lines 226-261. -/
def validationErrors (tl tm th vl vm vh ll lm lh : ℚ) : List ValidationRule :=
  (if ¬ (tl ≤ tm ∧ tm ≤ th) then [ValidationRule.tefOrder] else []) ++
  (if ¬ (vl ≤ vm ∧ vm ≤ vh) then [ValidationRule.vulnOrder] else []) ++
  (if ¬ (0 ≤ vl ∧ vl ≤ 1 ∧ 0 ≤ vm ∧ vm ≤ 1 ∧ 0 ≤ vh ∧ vh ≤ 1) then
    [ValidationRule.vulnBounds] else []) ++
  (if ¬ (ll ≤ lm ∧ lm ≤ lh) then [ValidationRule.lossOrder] else []) ++
  (if tl < 0 ∨ tm < 0 ∨ th < 0 then [ValidationRule.tefNonneg] else []) ++
  (if ll < 0 ∨ lm < 0 ∨ lh < 0 then [ValidationRule.lossNonneg] else [])

/-- PERT sampler `FAIRRiskCalculator._pert_distribution` (lines 151-197).
Returns the sampled array together with the generator state after sampling:
the degenerate `high == low` branch calls `np.full` and consumes no
randomness, while the Beta branch draws `size` samples, advancing the state
by one per draw. -/
def pertDistribution (P : RandomPrims) (low medium high : ℚ) (size state : ℕ) :
    Except SimError (List ℚ × ℕ) :=
  if ¬ (low ≤ medium ∧ medium ≤ high) then
    Except.error (SimError.pertOrder low medium high)
  else if high = low then
    Except.ok (List.replicate size medium, state)
  else
    let lambda_param : ℚ := 4
    let alpha := 1 + lambda_param * (medium - low) / (high - low)
    let beta := 1 + lambda_param * (high - medium) / (high - low)
    Except.ok
      ((List.range size).map (fun k => low + P.beta alpha beta (state + k) * (high - low)),
       state + size)

/-- Triangular sampler `FAIRRiskCalculator._triangular_distribution`
(lines 199-226): validates the ordering, then draws `size` samples. -/
def triangularDistribution (P : RandomPrims) (low medium high : ℚ) (size state : ℕ) :
    Except SimError (List ℚ × ℕ) :=
  if ¬ (low ≤ medium ∧ medium ≤ high) then
    Except.error (SimError.triangularOrder low medium high)
  else
    Except.ok
      ((List.range size).map (fun k => P.triangular low medium high (state + k)), state + size)

/-- Dispatch on the distribution kind, as the `if distribution == 'pert'`
branches of `run_simulation` do for each of the three factors. -/
def sampleFactor (P : RandomPrims) (dist : String) (e : Estimate) (size state : ℕ) :
    Except SimError (List ℚ × ℕ) :=
  if dist = "pert" then
    pertDistribution P e.low e.medium e.high size state
  else
    triangularDistribution P e.low e.medium e.high size state

/-- Sum-based arithmetic mean, `np.mean`.  numpy returns NaN on an empty
array; all uses below are on non-empty arrays, and `ℚ` division by zero
yields `0` in that unused case. -/
def mean (xs : List ℚ) : ℚ := xs.sum / (xs.length : ℚ)

/-- Ascending sort of the samples, as numpy percentile/median sorts its
input internally. -/
def sortAsc (xs : List ℚ) : List ℚ := xs.insertionSort (· ≤ ·)

/-- Linear interpolation at fractional position `x` into the sorted array
`s`: the value `s[⌊x⌋] + (x − ⌊x⌋)·(s[⌊x⌋+1] − s[⌊x⌋])`, which is numpy's
default (linear) interpolation when `0 ≤ x ≤ s.length − 1`.  When `⌊x⌋` is
the last index the second read falls back to the first, which is only
reachable with fractional part `0`. -/
def interp (s : List ℚ) (x : ℚ) : ℚ :=
  let i : ℕ := (⌊x⌋).toNat
  let lo := s.getD i 0
  let hi := s.getD (i + 1) lo
  lo + (x - (⌊x⌋ : ℚ)) * (hi - lo)

/-- `np.percentile(xs, p)` with the default linear interpolation: position
`p·(n−1)/100` into the sorted array. -/
def percentile (xs : List ℚ) (p : ℚ) : ℚ :=
  let s := sortAsc xs
  interp s (p * ((s.length : ℚ) - 1) / 100)

/-- `np.median`: middle element of the sorted array, or the average of the
two middle elements for even length. -/
def median (xs : List ℚ) : ℚ :=
  let s := sortAsc xs
  let n := s.length
  if n % 2 = 1 then s.getD (n / 2) 0
  else (s.getD (n / 2 - 1) 0 + s.getD (n / 2) 0) / 2

/-- `np.min` of a list (0 on the empty list, unused). -/
def amin (xs : List ℚ) : ℚ :=
  match xs with
  | [] => 0
  | x :: t => t.foldl min x

/-- `np.max` of a list (0 on the empty list, unused). -/
def amax (xs : List ℚ) : ℚ :=
  match xs with
  | [] => 0
  | x :: t => t.foldl max x

/-- Square of `np.std(xs, ddof=1)`: the unbiased sample variance
`Σ (x − mean)² / (n − 1)`.  The source reports its square root; over `ℚ` we
record the variance, and `std == 0` exactly when this is `0`. -/
def sampleVariance (xs : List ℚ) : ℚ :=
  let m := mean xs
  (xs.map (fun x => (x - m) ^ 2)).sum / ((xs.length : ℚ) - 1)

/-- Fraction of samples satisfying a predicate, as in
`np.sum(ale_samples > 1000000) / len(ale_samples)`. -/
def fractionP (xs : List ℚ) (p : ℚ → Bool) : ℚ :=
  ((xs.countP p : ℕ) : ℚ) / (xs.length : ℚ)

/-- Statistics record assembled in `FAIRRiskCalculator.run_simulation`
(lines 305-354).  `std_sq_loss` is the square of the reported `std_loss`
(see `sampleVariance`). -/
structure Stats where
  mean_loss : ℚ
  median_loss : ℚ
  std_sq_loss : ℚ
  min_loss : ℚ
  max_loss : ℚ
  percentile_10 : ℚ
  percentile_25 : ℚ
  percentile_50 : ℚ
  percentile_75 : ℚ
  percentile_90 : ℚ
  percentile_95 : ℚ
  percentile_99 : ℚ
  var_95 : ℚ
  cvar_95 : ℚ
  probability_zero_loss : ℚ
  probability_over_1m : ℚ
  probability_over_5m : ℚ
  probability_over_10m : ℚ
deriving DecidableEq

/-- Statistics computation of `run_simulation` lines 305-354: `var_95_value`
is computed once (line 307) and reused for both the `var_95` field and the
CVaR mean (line 312), while the `percentile_95` field recomputes
`np.percentile(ale_samples, 95)` (line 342) exactly as the source does. -/
def computeStats (ale : List ℚ) : Stats :=
  let var_95_value := percentile ale 95
  let cvar_95_value := mean (ale.filter (fun x => decide (var_95_value ≤ x)))
  { mean_loss := mean ale
    median_loss := median ale
    std_sq_loss := sampleVariance ale
    min_loss := amin ale
    max_loss := amax ale
    percentile_10 := percentile ale 10
    percentile_25 := percentile ale 25
    percentile_50 := percentile ale 50
    percentile_75 := percentile ale 75
    percentile_90 := percentile ale 90
    percentile_95 := percentile ale 95
    percentile_99 := percentile ale 99
    var_95 := var_95_value
    cvar_95 := cvar_95_value
    probability_zero_loss := fractionP ale (fun x => decide (x = 0))
    probability_over_1m := fractionP ale (fun x => decide (1000000 < x))
    probability_over_5m := fractionP ale (fun x => decide (5000000 < x))
    probability_over_10m := fractionP ale (fun x => decide (10000000 < x)) }

/-- Result record returned by `FAIRRiskCalculator.run_simulation`
(lines 315-355). -/
structure SimResult where
  scenario_id : String
  description : String
  iterations : ℕ
  distribution_type : String
  tef_samples : List ℚ
  vuln_samples : List ℚ
  loss_samples : List ℚ
  lef_samples : List ℚ
  ale_samples : List ℚ
  statistics : Stats

/-- State of a `FAIRRiskCalculator` instance: the `iterations`, `scenarios`
and `simulation_results` attributes, together with the global numpy
generator state the instance's method calls observe. -/
structure Calculator where
  iterations : ℕ
  scenarios : List Scenario
  simulation_results : String → Option SimResult
  rngState : ℕ

/-- Constructor `FAIRRiskCalculator.__init__` (lines 35-54): bounds check on
`iterations`, empty scenario list and result cache, and
`np.random.seed(random_seed)` when a seed is given (otherwise the ambient
global generator state is left as it is). -/
def mkCalculator (iterations : ℕ) (random_seed : Option ℕ) (ambient : ℕ) :
    Except SimError Calculator :=
  if iterations < 1000 then Except.error SimError.iterationsTooLow
  else if iterations > 1000000 then Except.error SimError.iterationsTooHigh
  else
    Except.ok
      { iterations := iterations
        scenarios := []
        simulation_results := fun _ => none
        rngState :=
          match random_seed with
          | some s => s
          | none => ambient }

/-- Method `FAIRRiskCalculator.add_scenario` (lines 56-149): run all six
validation checks, raise the aggregate error when any failed, otherwise
append the scenario record to the list. -/
def addScenario (c : Calculator) (scenario_id description : String)
    (tl tm th vl vm vh ll lm lh : ℚ)
    (asset threat_actor loss_effect notes : String) :
    Except SimError Calculator :=
  let errs := validationErrors tl tm th vl vm vh ll lm lh
  if errs.isEmpty then
    Except.ok
      { c with
        scenarios := c.scenarios ++
          [{ id := scenario_id
             description := description
             tef := { low := tl, medium := tm, high := th }
             vulnerability := { low := vl, medium := vm, high := vh }
             loss_magnitude := { low := ll, medium := lm, high := lh }
             asset := asset
             threat_actor := threat_actor
             loss_effect := loss_effect
             notes := notes }] }
  else Except.error (SimError.validationFailed scenario_id errs)

/-- Sampling and FAIR-arithmetic body of `run_simulation` (lines 256-355),
after the lookup and the distribution-kind check: draw the three factor
sample arrays (each advancing the global generator state), compute
`lef = tef · vuln` and `ale = lef · loss` elementwise, and build the
statistics.  Returns the generator state alongside, also on error (an
exception thrown while drawing the second or third array leaves the global
state where the earlier draws put it). -/
def simulateScenario (P : RandomPrims) (scenario_id : String) (iterations state : ℕ)
    (dist : String) (scen : Scenario) : Except SimError SimResult × ℕ :=
  match sampleFactor P dist scen.tef iterations state with
  | Except.error e => (Except.error e, state)
  | Except.ok (tefS, st1) =>
    match sampleFactor P dist scen.vulnerability iterations st1 with
    | Except.error e => (Except.error e, st1)
    | Except.ok (vulnS, st2) =>
      match sampleFactor P dist scen.loss_magnitude iterations st2 with
      | Except.error e => (Except.error e, st2)
      | Except.ok (lossS, st3) =>
        let lefS := List.zipWith (· * ·) tefS vulnS
        let aleS := List.zipWith (· * ·) lefS lossS
        (Except.ok
          { scenario_id := scenario_id
            description := scen.description
            iterations := iterations
            distribution_type := dist
            tef_samples := tefS
            vuln_samples := vulnS
            loss_samples := lossS
            lef_samples := lefS
            ale_samples := aleS
            statistics := computeStats aleS },
         st3)

/-- Method `FAIRRiskCalculator.run_simulation` (lines 228-358): look up the
first scenario with the given id, reject unknown distribution kinds, run
the simulation body, and on success store the result in the cache under the
scenario id (overwriting any previous entry).  An error leaves the cache
untouched and the generator state wherever the draws made so far left
it. -/
def runSimulation (P : RandomPrims) (c : Calculator) (scenario_id dist : String) :
    Except SimError SimResult × Calculator :=
  match c.scenarios.find? (fun s => s.id == scenario_id) with
  | none => (Except.error (SimError.scenarioNotFound scenario_id), c)
  | some scen =>
    if dist ≠ "pert" ∧ dist ≠ "triangular" then
      (Except.error (SimError.invalidDistribution dist), c)
    else
      let out := simulateScenario P scenario_id c.iterations c.rngState dist scen
      match out.1 with
      | Except.error e => (Except.error e, { c with rngState := out.2 })
      | Except.ok res =>
        (Except.ok res,
         { c with
           rngState := out.2
           simulation_results := fun k =>
             if k = scenario_id then some res else c.simulation_results k })

/-- Result dictionary of the Streamlit `FAIRCalculator.run_simulation`
(fair_risk_app.py lines 228-254): the five sample arrays and the statistics
(whose field names `p10` ... `prob_10m` correspond one to one to the `Stats`
fields here). -/
structure AppResult where
  tef : List ℚ
  vuln : List ℚ
  loss : List ℚ
  lef : List ℚ
  ale : List ℚ
  stats : Stats

/-- Static method `FAIRCalculator.run_simulation` of fair_risk_app.py
(lines 182-254).  Note the dispatch at lines 200-219: `if dist_type ==
'pert': ... else: # triangular` — any kind other than `"pert"` takes the
triangular branch; there is no rejection of unknown kinds. -/
def appRunSimulation (P : RandomPrims) (tef_params vuln_params loss_params : Estimate)
    (iterations : ℕ) (dist_type : String) (state : ℕ) :
    Except SimError AppResult × ℕ :=
  let step :=
    if dist_type = "pert" then
      pertDistribution P tef_params.low tef_params.medium tef_params.high iterations state
    else
      triangularDistribution P tef_params.low tef_params.medium tef_params.high iterations state
  match step with
  | Except.error e => (Except.error e, state)
  | Except.ok (tefS, st1) =>
    let step2 :=
      if dist_type = "pert" then
        pertDistribution P vuln_params.low vuln_params.medium vuln_params.high iterations st1
      else
        triangularDistribution P vuln_params.low vuln_params.medium vuln_params.high iterations st1
    match step2 with
    | Except.error e => (Except.error e, st1)
    | Except.ok (vulnS, st2) =>
      let step3 :=
        if dist_type = "pert" then
          pertDistribution P loss_params.low loss_params.medium loss_params.high iterations st2
        else
          triangularDistribution P loss_params.low loss_params.medium loss_params.high iterations st2
      match step3 with
      | Except.error e => (Except.error e, st2)
      | Except.ok (lossS, st3) =>
        let lefS := List.zipWith (· * ·) tefS vulnS
        let aleS := List.zipWith (· * ·) lefS lossS
        (Except.ok
          { tef := tefS, vuln := vulnS, loss := lossS, lef := lefS, ale := aleS
            stats := computeStats aleS },
         st3)

/-- Result dictionary of `QuickRiskAnalyzer.analyze_risk`
(quick_risk_analysis.py lines 104-114).  `std_sq` is the square of the
reported `std` (see `sampleVariance`). -/
structure QuickResult where
  mean : ℚ
  median : ℚ
  std_sq : ℚ
  p90 : ℚ
  var95 : ℚ
  cvar95 : ℚ
  prob_1m : ℚ
  prob_5m : ℚ
  samples : List ℚ

/-- Static method `QuickRiskAnalyzer.analyze_risk` (lines 61-114): seed the
global generator when a seed is given, draw the three PERT arrays, form
`ale = tef · vuln · loss`, compute `var95` once and reuse it for the CVaR
mean.  There is no check at all on `iterations`. -/
def quickAnalyzeRisk (P : RandomPrims) (tef vuln loss : Estimate)
    (iterations : ℕ) (random_seed : Option ℕ) (ambient : ℕ) :
    Except SimError QuickResult × ℕ :=
  let st0 :=
    match random_seed with
    | some s => s
    | none => ambient
  match pertDistribution P tef.low tef.medium tef.high iterations st0 with
  | Except.error e => (Except.error e, st0)
  | Except.ok (tefS, st1) =>
    match pertDistribution P vuln.low vuln.medium vuln.high iterations st1 with
    | Except.error e => (Except.error e, st1)
    | Except.ok (vulnS, st2) =>
      match pertDistribution P loss.low loss.medium loss.high iterations st2 with
      | Except.error e => (Except.error e, st2)
      | Except.ok (lossS, st3) =>
        let aleS := List.zipWith (· * ·) (List.zipWith (· * ·) tefS vulnS) lossS
        let var95_value := percentile aleS 95
        (Except.ok
          { mean := mean aleS
            median := median aleS
            std_sq := sampleVariance aleS
            p90 := percentile aleS 90
            var95 := var95_value
            cvar95 := mean (aleS.filter (fun x => decide (var95_value ≤ x)))
            prob_1m := fractionP aleS (fun x => decide (1000000 < x))
            prob_5m := fractionP aleS (fun x => decide (5000000 < x))
            samples := aleS },
         st3)

/-! Concrete instantiations used to evaluate the theorems below on explicit
inputs: a constant draw primitive, a state-sensitive draw primitive, and
small scenarios and calculator states. -/

/-- Draw primitives that always return `1/2`, a value every distribution
support below contains. -/
def halfPrims : RandomPrims :=
  { beta := fun _ _ _ => 1 / 2
    triangular := fun _ _ _ _ => 1 / 2 }

/-- Draw primitives whose value depends on the generator state, as a real
pseudo-random generator's do: state `0` yields `0`, any later state yields
`1/2`. -/
def stepPrims : RandomPrims :=
  { beta := fun _ _ s => if s = 0 then 0 else 1 / 2
    triangular := fun _ _ _ s => if s = 0 then 0 else 1 / 2 }

/-- Demo TEF estimate. -/
def estT : Estimate := { low := 0, medium := 1, high := 2 }

/-- Demo vulnerability estimate. -/
def estV : Estimate := { low := 0, medium := 1 / 2, high := 1 }

/-- Demo loss-magnitude estimate. -/
def estL : Estimate := { low := 0, medium := 10, high := 20 }

/-- Demo scenario with identifier `S1`, exactly as `add_scenario` would
build it. -/
def scenA : Scenario :=
  { id := "S1"
    description := "demo"
    tef := estT
    vulnerability := estV
    loss_magnitude := estL
    asset := ""
    threat_actor := ""
    loss_effect := ""
    notes := "" }

/-- Second scenario with the same identifier `S1` but another
description. -/
def scenA2 : Scenario := { scenA with description := "other" }

/-- Fully degenerate scenario: every factor has `low = medium = high`. -/
def scenDeg : Scenario :=
  { id := "D"
    description := "degenerate"
    tef := { low := 2, medium := 2, high := 2 }
    vulnerability := { low := 1 / 2, medium := 1 / 2, high := 1 / 2 }
    loss_magnitude := { low := 1000, medium := 1000, high := 1000 }
    asset := ""
    threat_actor := ""
    loss_effect := ""
    notes := "" }

/-- Calculator seeded with `0` holding the demo scenario, at the minimum
legal iteration count. -/
def demoCalc1000 : Calculator :=
  { iterations := 1000
    scenarios := [scenA]
    simulation_results := fun _ => none
    rngState := 0 }

/-- Small calculator used where the iteration count is irrelevant to the
statement being instantiated. -/
def smallCalc : Calculator :=
  { iterations := 2
    scenarios := [scenA]
    simulation_results := fun _ => none
    rngState := 0 }

/-- Small calculator holding two scenarios that share the identifier
`S1`. -/
def dupCalc : Calculator :=
  { iterations := 2
    scenarios := [scenA, scenA2]
    simulation_results := fun _ => none
    rngState := 0 }

/-- Small calculator holding the degenerate scenario. -/
def degCalc : Calculator :=
  { iterations := 2
    scenarios := [scenDeg]
    simulation_results := fun _ => none
    rngState := 0 }

/-- Freshly constructed calculator with seed `5`, as `mkCalculator 1000
(some 5) ambient` returns for any ambient state. -/
def cSeed5 : Calculator :=
  { iterations := 1000
    scenarios := []
    simulation_results := fun _ => none
    rngState := 5 }

/-- Scenario the witness below adds to `cSeed5`. -/
def scenSeed : Scenario :=
  { id := "S1"
    description := "demo"
    tef := { low := 0, medium := 1, high := 2 }
    vulnerability := { low := 0, medium := 0, high := 1 }
    loss_magnitude := { low := 0, medium := 10, high := 20 }
    asset := ""
    threat_actor := ""
    loss_effect := ""
    notes := "" }

/-- The calculator `cSeed5` after adding `scenSeed`. -/
def dSeed5 : Calculator := { cSeed5 with scenarios := [scenSeed] }

/-- Empty calculator used to instantiate validation statements. -/
def emptyCalc : Calculator :=
  { iterations := 10000
    scenarios := []
    simulation_results := fun _ => none
    rngState := 0 }

/-! General helper lemmas. -/

theorem mem_ite_singleton {α : Type} (p : Prop) [Decidable p] (a b : α) :
    (a ∈ if p then [b] else []) ↔ (p ∧ a = b) := by
  split_ifs <;> simp_all

theorem ite_singleton_eq_nil {α : Type} (p : Prop) [Decidable p] (b : α) :
    ((if p then [b] else []) = []) ↔ ¬ p := by
  split_ifs <;> simp_all

/-! Order lemmas about sorted lists and linear interpolation, leading to the
monotonicity of `percentile` in its percentage argument. -/

theorem sorted_getD_mono {s : List ℚ} (hs : s.Sorted (· ≤ ·)) {i j : ℕ}
    (hij : i ≤ j) (hj : j < s.length) : s.getD i 0 ≤ s.getD j 0 := by
  have hi : i < s.length := lt_of_le_of_lt hij hj
  rw [List.getD_eq_getElem _ _ hi, List.getD_eq_getElem _ _ hj]
  have h := hs.rel_get_of_le (a := ⟨i, hi⟩) (b := ⟨j, hj⟩) hij
  simpa [List.get_eq_getElem] using h

theorem getD_succ_ge {s : List ℚ} (hs : s.Sorted (· ≤ ·)) {k : ℕ} (hk : k < s.length) :
    s.getD k 0 ≤ s.getD (k + 1) (s.getD k 0) := by
  by_cases h : k + 1 < s.length
  · have h2 := sorted_getD_mono hs (Nat.le_succ k) h
    rwa [List.getD_eq_getElem _ _ h, ← List.getD_eq_getElem (d := s.getD k 0) _ h] at h2
  · have heq : s.getD (k + 1) (s.getD k 0) = s.getD k 0 :=
      List.getD_eq_default _ _ (by omega)
    rw [heq]

theorem interp_unfold (s : List ℚ) (x : ℚ) :
    interp s x = s.getD (⌊x⌋).toNat 0 +
      (x - (⌊x⌋ : ℚ)) * (s.getD ((⌊x⌋).toNat + 1) (s.getD (⌊x⌋).toNat 0) - s.getD (⌊x⌋).toNat 0) :=
  rfl

theorem interp_mono {s : List ℚ} (hs : s.Sorted (· ≤ ·)) {x y : ℚ}
    (hx0 : 0 ≤ x) (hxy : x ≤ y) (hyn : y ≤ (s.length : ℚ) - 1) :
    interp s x ≤ interp s y := by
  have hy0 : 0 ≤ y := le_trans hx0 hxy
  have hn1 : (1 : ℚ) ≤ (s.length : ℚ) := by linarith
  have hn : 1 ≤ s.length := by exact_mod_cast hn1
  have hfx0 : (0:ℤ) ≤ ⌊x⌋ := Int.floor_nonneg.mpr hx0
  have hfy0 : (0:ℤ) ≤ ⌊y⌋ := Int.floor_nonneg.mpr hy0
  have hfyn : ⌊y⌋ ≤ (s.length : ℤ) - 1 := by
    have h := Int.floor_le_floor (α := ℚ) hyn
    rwa [show ((s.length : ℚ) - 1) = (((s.length : ℤ) - 1 : ℤ) : ℚ) by push_cast; ring,
      Int.floor_intCast] at h
  have hiy_lt : (⌊y⌋).toNat < s.length := by omega
  have hix_lt : (⌊x⌋).toNat < s.length := by
    have h := Int.floor_le_floor (α := ℚ) hxy
    omega
  have hfracx0 : 0 ≤ x - (⌊x⌋ : ℚ) := sub_nonneg.mpr (Int.floor_le x)
  have hfracx1 : x - (⌊x⌋ : ℚ) ≤ 1 := by
    have h := Int.lt_floor_add_one x
    push_cast at h ⊢
    linarith
  have hfracy0 : 0 ≤ y - (⌊y⌋ : ℚ) := sub_nonneg.mpr (Int.floor_le y)
  by_cases heq : ⌊x⌋ = ⌊y⌋
  · rw [interp_unfold, interp_unfold, heq]
    have hd := getD_succ_ge hs hiy_lt
    have hmul := mul_le_mul_of_nonneg_right (sub_le_sub_right hxy ((⌊y⌋ : ℚ)))
      (sub_nonneg.mpr hd)
    linarith
  · have hlt : ⌊x⌋ < ⌊y⌋ := lt_of_le_of_ne (Int.floor_le_floor hxy) heq
    have hix1 : (⌊x⌋).toNat + 1 ≤ (⌊y⌋).toNat := by omega
    have hix1_lt : (⌊x⌋).toNat + 1 < s.length := lt_of_le_of_lt hix1 hiy_lt
    have step1 : interp s x ≤ s.getD ((⌊x⌋).toNat + 1) 0 := by
      rw [interp_unfold]
      have hhi : s.getD ((⌊x⌋).toNat + 1) (s.getD (⌊x⌋).toNat 0) =
          s.getD ((⌊x⌋).toNat + 1) 0 := by
        rw [List.getD_eq_getElem _ _ hix1_lt, List.getD_eq_getElem _ _ hix1_lt]
      rw [hhi]
      have hlohi : s.getD (⌊x⌋).toNat 0 ≤ s.getD ((⌊x⌋).toNat + 1) 0 :=
        sorted_getD_mono hs (Nat.le_succ _) hix1_lt
      nlinarith
    have step2 : s.getD ((⌊x⌋).toNat + 1) 0 ≤ s.getD (⌊y⌋).toNat 0 :=
      sorted_getD_mono hs hix1 hiy_lt
    have step3 : s.getD (⌊y⌋).toNat 0 ≤ interp s y := by
      rw [interp_unfold]
      have hd := getD_succ_ge hs hiy_lt
      nlinarith
    linarith

theorem interp_le_last {s : List ℚ} (hs : s.Sorted (· ≤ ·)) {x : ℚ}
    (hx0 : 0 ≤ x) (hxn : x ≤ (s.length : ℚ) - 1) :
    interp s x ≤ s.getD (s.length - 1) 0 := by
  have hn1 : (1 : ℚ) ≤ (s.length : ℚ) := by linarith
  have hn : 1 ≤ s.length := by exact_mod_cast hn1
  have hfx0 : (0:ℤ) ≤ ⌊x⌋ := Int.floor_nonneg.mpr hx0
  have hfxn : ⌊x⌋ ≤ (s.length : ℤ) - 1 := by
    have h := Int.floor_le_floor (α := ℚ) hxn
    rwa [show ((s.length : ℚ) - 1) = (((s.length : ℤ) - 1 : ℤ) : ℚ) by push_cast; ring,
      Int.floor_intCast] at h
  have hix_lt : (⌊x⌋).toNat < s.length := by omega
  have hfracx0 : 0 ≤ x - (⌊x⌋ : ℚ) := sub_nonneg.mpr (Int.floor_le x)
  have hfracx1 : x - (⌊x⌋ : ℚ) ≤ 1 := by
    have h := Int.lt_floor_add_one x
    push_cast at h ⊢
    linarith
  rw [interp_unfold]
  by_cases h : (⌊x⌋).toNat + 1 < s.length
  · have hhi : s.getD ((⌊x⌋).toNat + 1) (s.getD (⌊x⌋).toNat 0) =
        s.getD ((⌊x⌋).toNat + 1) 0 := by
      rw [List.getD_eq_getElem _ _ h, List.getD_eq_getElem _ _ h]
    rw [hhi]
    have h1 : s.getD (⌊x⌋).toNat 0 ≤ s.getD ((⌊x⌋).toNat + 1) 0 :=
      sorted_getD_mono hs (Nat.le_succ _) h
    have h2 : s.getD ((⌊x⌋).toNat + 1) 0 ≤ s.getD (s.length - 1) 0 :=
      sorted_getD_mono hs (by omega) (by omega)
    nlinarith
  · have heq : s.getD ((⌊x⌋).toNat + 1) (s.getD (⌊x⌋).toNat 0) = s.getD (⌊x⌋).toNat 0 :=
      List.getD_eq_default _ _ (by omega)
    rw [heq]
    have h2 : s.getD (⌊x⌋).toNat 0 ≤ s.getD (s.length - 1) 0 :=
      sorted_getD_mono hs (by omega) (by omega)
    linarith

theorem mean_ge {l : List ℚ} {c : ℚ} (hne : l ≠ []) (h : ∀ x ∈ l, c ≤ x) :
    c ≤ mean l := by
  have hlen : 0 < l.length := List.length_pos.mpr hne
  have hsum : l.length • c ≤ l.sum := List.card_nsmul_le_sum l c h
  rw [nsmul_eq_mul] at hsum
  rw [mean, le_div_iff₀ (by exact_mod_cast hlen)]
  linarith [hsum]

theorem percentile_mono {xs : List ℚ} (hne : xs ≠ []) {p q : ℚ}
    (hp : 0 ≤ p) (hpq : p ≤ q) (hq : q ≤ 100) :
    percentile xs p ≤ percentile xs q := by
  have hperm : List.Perm (sortAsc xs) xs := xs.perm_insertionSort (· ≤ ·)
  have hpos : 0 < xs.length := List.length_pos.mpr hne
  have hn1 : (1:ℚ) ≤ ((sortAsc xs).length : ℚ) := by
    rw [hperm.length_eq]; exact_mod_cast hpos
  have hs : (sortAsc xs).Sorted (· ≤ ·) := xs.sorted_insertionSort (· ≤ ·)
  apply interp_mono hs
  · exact div_nonneg (mul_nonneg hp (by linarith)) (by norm_num)
  · rw [div_le_div_iff₀ (by norm_num) (by norm_num)]
    nlinarith
  · rw [div_le_iff₀ (by norm_num)]
    nlinarith

theorem percentile_le_last {xs : List ℚ} (hne : xs ≠ []) {p : ℚ}
    (hp : 0 ≤ p) (hq : p ≤ 100) :
    percentile xs p ≤ (sortAsc xs).getD ((sortAsc xs).length - 1) 0 := by
  have hperm : List.Perm (sortAsc xs) xs := xs.perm_insertionSort (· ≤ ·)
  have hpos : 0 < xs.length := List.length_pos.mpr hne
  have hn1 : (1:ℚ) ≤ ((sortAsc xs).length : ℚ) := by
    rw [hperm.length_eq]; exact_mod_cast hpos
  have hs : (sortAsc xs).Sorted (· ≤ ·) := xs.sorted_insertionSort (· ≤ ·)
  apply interp_le_last hs
  · exact div_nonneg (mul_nonneg hp (by linarith)) (by norm_num)
  · rw [div_le_iff₀ (by norm_num)]
    nlinarith

theorem var_le_cvar {ale : List ℚ} (hne : ale ≠ []) :
    percentile ale 95 ≤ mean (ale.filter (fun x => decide (percentile ale 95 ≤ x))) := by
  have hperm : List.Perm (sortAsc ale) ale := ale.perm_insertionSort (· ≤ ·)
  have hpos : 0 < ale.length := List.length_pos.mpr hne
  have hslen : 0 < (sortAsc ale).length := by rw [hperm.length_eq]; exact hpos
  have hvM : percentile ale 95 ≤ (sortAsc ale).getD ((sortAsc ale).length - 1) 0 :=
    percentile_le_last hne (by norm_num) (by norm_num)
  have hMmem : (sortAsc ale).getD ((sortAsc ale).length - 1) 0 ∈ ale := by
    have h1 : (sortAsc ale).getD ((sortAsc ale).length - 1) 0 ∈ sortAsc ale := by
      rw [List.getD_eq_getElem _ _ (by omega)]
      exact List.getElem_mem _
    exact hperm.mem_iff.mp h1
  have hMfilter : (sortAsc ale).getD ((sortAsc ale).length - 1) 0 ∈
      ale.filter (fun x => decide (percentile ale 95 ≤ x)) := by
    rw [List.mem_filter]
    exact ⟨hMmem, by simpa using hvM⟩
  apply mean_ge (List.ne_nil_of_mem hMfilter)
  intro x hx
  rw [List.mem_filter] at hx
  simpa using hx.2

theorem mean_replicate {n : ℕ} (hn : n ≠ 0) (c : ℚ) :
    mean (List.replicate n c) = c := by
  rw [mean, List.sum_replicate, nsmul_eq_mul, List.length_replicate]
  exact mul_div_cancel_left₀ c (by exact_mod_cast hn)

theorem sampleVariance_replicate (n : ℕ) (c : ℚ) :
    sampleVariance (List.replicate n c) = 0 := by
  rcases Nat.eq_zero_or_pos n with h | h
  · subst h; simp [sampleVariance, mean]
  · have hm : mean (List.replicate n c) = c := mean_replicate (by omega) c
    simp only [sampleVariance, hm, List.map_replicate, sub_self]
    norm_num [List.sum_replicate]

/-! Characterization lemmas for the samplers and the simulation run. -/

theorem sampleFactor_length {P : RandomPrims} {dist : String} {e : Estimate}
    {size st : ℕ} {l : List ℚ} {st' : ℕ}
    (h : sampleFactor P dist e size st = Except.ok (l, st')) : l.length = size := by
  unfold sampleFactor pertDistribution triangularDistribution at h
  split_ifs at h
  all_goals
    simp only [Except.ok.injEq, Prod.mk.injEq] at h
    obtain ⟨rfl, -⟩ := h
    simp

theorem pertDistribution_length {P : RandomPrims} {low medium high : ℚ}
    {size st : ℕ} {l : List ℚ} {st' : ℕ}
    (h : pertDistribution P low medium high size st = Except.ok (l, st')) :
    l.length = size := by
  unfold pertDistribution at h
  split_ifs at h
  all_goals
    simp only [Except.ok.injEq, Prod.mk.injEq] at h
    obtain ⟨rfl, -⟩ := h
    simp

theorem pert_ok (P : RandomPrims) {low medium high : ℚ} (size state : ℕ)
    (h1 : low ≤ medium) (h2 : medium ≤ high) :
    ∃ out, pertDistribution P low medium high size state = Except.ok out := by
  unfold pertDistribution
  rw [if_neg (not_not.mpr ⟨h1, h2⟩)]
  by_cases hdeg : high = low
  · rw [if_pos hdeg]; exact ⟨_, rfl⟩
  · rw [if_neg hdeg]; exact ⟨_, rfl⟩

theorem quickAnalyzeRisk_ok (P : RandomPrims) (tef vuln loss : Estimate)
    (iterations : ℕ) (seed : Option ℕ) (ambient : ℕ)
    (h1 : tef.low ≤ tef.medium) (h2 : tef.medium ≤ tef.high)
    (h3 : vuln.low ≤ vuln.medium) (h4 : vuln.medium ≤ vuln.high)
    (h5 : loss.low ≤ loss.medium) (h6 : loss.medium ≤ loss.high) :
    (quickAnalyzeRisk P tef vuln loss iterations seed ambient).1.toOption.isSome = true ∧
    (quickAnalyzeRisk P tef vuln loss iterations seed ambient).1.toOption.map
      (fun r => r.samples.length) = some iterations := by
  obtain ⟨⟨l1, s1⟩, ho1⟩ :=
    pert_ok P iterations
      (match seed with | some s => s | none => ambient) h1 h2
  obtain ⟨⟨l2, s2⟩, ho2⟩ :=
    pert_ok P iterations s1 h3 h4
  obtain ⟨⟨l3, s3⟩, ho3⟩ :=
    pert_ok P iterations s2 h5 h6
  have e1 : l1.length = iterations := pertDistribution_length ho1
  have e2 : l2.length = iterations := pertDistribution_length ho2
  have e3 : l3.length = iterations := pertDistribution_length ho3
  simp only [quickAnalyzeRisk, ho1, ho2, ho3, Except.toOption, Option.map_some]
  constructor
  · rfl
  · simp [List.length_zipWith, e1, e2, e3]

theorem simulateScenario_ok {P : RandomPrims} {sid : String} {n st : ℕ}
    {dist : String} {scen : Scenario} {res : SimResult}
    (h : (simulateScenario P sid n st dist scen).1 = Except.ok res) :
    ∃ st1 st2 st3,
      sampleFactor P dist scen.tef n st = Except.ok (res.tef_samples, st1) ∧
      sampleFactor P dist scen.vulnerability n st1 = Except.ok (res.vuln_samples, st2) ∧
      sampleFactor P dist scen.loss_magnitude n st2 = Except.ok (res.loss_samples, st3) ∧
      res.lef_samples = List.zipWith (· * ·) res.tef_samples res.vuln_samples ∧
      res.ale_samples = List.zipWith (· * ·) res.lef_samples res.loss_samples ∧
      res.statistics = computeStats res.ale_samples ∧
      res.iterations = n ∧ res.scenario_id = sid ∧ res.distribution_type = dist := by
  rcases h1 : sampleFactor P dist scen.tef n st with e | ⟨tefS, st1⟩
  · simp [simulateScenario, h1] at h
  · rcases h2 : sampleFactor P dist scen.vulnerability n st1 with e | ⟨vulnS, st2⟩
    · simp [simulateScenario, h1, h2] at h
    · rcases h3 : sampleFactor P dist scen.loss_magnitude n st2 with e | ⟨lossS, st3⟩
      · simp [simulateScenario, h1, h2, h3] at h
      · simp only [simulateScenario, h1, h2, h3, Except.ok.injEq] at h
        subst h
        exact ⟨st1, st2, st3, rfl, h2, h3, rfl, rfl, rfl, rfl, rfl, rfl⟩

theorem runSimulation_ok {P : RandomPrims} {c : Calculator} {sid dist : String}
    {res : SimResult}
    (h : (runSimulation P c sid dist).1 = Except.ok res) :
    ∃ scen, c.scenarios.find? (fun s => s.id == sid) = some scen ∧
      (simulateScenario P sid c.iterations c.rngState dist scen).1 = Except.ok res := by
  rcases hfind : c.scenarios.find? (fun s => s.id == sid) with _ | scen
  · simp [runSimulation, hfind] at h
  · by_cases hcond : dist ≠ "pert" ∧ dist ≠ "triangular"
    · simp only [runSimulation, hfind, if_pos hcond] at h
      exact absurd h (by simp)
    · have hfst : (runSimulation P c sid dist).1 =
          (simulateScenario P sid c.iterations c.rngState dist scen).1 := by
        simp only [runSimulation, hfind, if_neg hcond]
        rcases hsim : (simulateScenario P sid c.iterations c.rngState dist scen).1 with e | r <;>
          simp [hsim]
      rw [hfst] at h
      exact ⟨scen, hfind, h⟩

/-! Claim theorems. -/

/-- C2: for every `(low, medium, high, count)` with `low ≤ medium ≤ high`,
the PERT sampler returns a constant array of `medium` of length `count` when
`low = high`; otherwise it draws `count` Beta samples with
`α = 1 + 4·(medium−low)/(high−low)` and `β = 1 + 4·(high−medium)/(high−low)`
and returns `low + sample·(high−low)`; and (provided the Beta primitive
yields values in `[0,1]`) every returned value lies in `[low, high]`. -/
theorem pert_sampler_spec (P : RandomPrims) (low medium high : ℚ) (size state : ℕ)
    (h1 : low ≤ medium) (h2 : medium ≤ high)
    (hP : ∀ a b s, 0 ≤ P.beta a b s ∧ P.beta a b s ≤ 1) :
    (high = low →
      pertDistribution P low medium high size state =
        Except.ok (List.replicate size medium, state)) ∧
    (high ≠ low →
      pertDistribution P low medium high size state =
        Except.ok ((List.range size).map (fun k =>
          low + P.beta (1 + 4 * (medium - low) / (high - low))
                       (1 + 4 * (high - medium) / (high - low)) (state + k) * (high - low)),
          state + size)) ∧
    (∀ out, pertDistribution P low medium high size state = Except.ok out →
      ∀ x ∈ out.1, low ≤ x ∧ x ≤ high) := by
  refine ⟨?_, ?_, ?_⟩
  · intro hdeg
    have h2' : medium ≤ low := hdeg ▸ h2
    simp [pertDistribution, h1, h2, h2', hdeg]
  · intro hne
    simp [pertDistribution, h1, h2, hne]
  · intro out hout x hx
    by_cases hdeg : high = low
    · have h2' : medium ≤ low := hdeg ▸ h2
      simp [pertDistribution, h1, h2, h2', hdeg] at hout
      subst hout
      simp only [List.eq_of_mem_replicate hx]
      exact ⟨h1, h2⟩
    · simp [pertDistribution, h1, h2, hdeg] at hout
      subst hout
      simp only [List.mem_map, List.mem_range] at hx
      obtain ⟨k, -, rfl⟩ := hx
      obtain ⟨hb0, hb1⟩ := hP (1 + 4 * (medium - low) / (high - low))
        (1 + 4 * (high - medium) / (high - low)) (state + k)
      have hd : (0:ℚ) ≤ high - low := by linarith
      constructor
      · nlinarith
      · nlinarith

/-- Witness for C2 at a concrete input. -/
theorem pert_sampler_spec_witness :
    ((0:ℚ) ≤ 1 ∧ (1:ℚ) ≤ 2 ∧
      (∀ a b s, 0 ≤ halfPrims.beta a b s ∧ halfPrims.beta a b s ≤ 1)) ∧
    (∀ out, pertDistribution halfPrims 0 1 2 3 0 = Except.ok out →
      ∀ x ∈ out.1, 0 ≤ x ∧ x ≤ 2) := by
  refine ⟨⟨by norm_num, by norm_num, fun a b s => by norm_num [halfPrims]⟩, ?_⟩
  exact (pert_sampler_spec halfPrims 0 1 2 3 0 (by norm_num) (by norm_num)
    (fun a b s => by norm_num [halfPrims])).2.2

/-- C4: for every non-empty `ale` sample array, the reported `var_95` equals
the reported `percentile_95` (both are the 95th linear-interpolated
percentile; the value backing `var_95` is computed once and shared with the
CVaR computation), `cvar_95` is the mean of all samples `≥ var_95`, and
`cvar_95 ≥ var_95`. -/
theorem var95_p95_cvar95_spec (ale : List ℚ) (hne : ale ≠ []) :
    (computeStats ale).var_95 = (computeStats ale).percentile_95 ∧
    (computeStats ale).cvar_95 =
      mean (ale.filter (fun x => decide ((computeStats ale).var_95 ≤ x))) ∧
    (computeStats ale).var_95 ≤ (computeStats ale).cvar_95 :=
  ⟨rfl, rfl, var_le_cvar hne⟩

/-- Witness for C4 at a concrete input. -/
theorem var95_p95_cvar95_spec_witness :
    ([(1:ℚ), 2, 3] ≠ []) ∧
    ((computeStats [(1:ℚ), 2, 3]).var_95 = (computeStats [(1:ℚ), 2, 3]).percentile_95 ∧
     (computeStats [(1:ℚ), 2, 3]).var_95 ≤ (computeStats [(1:ℚ), 2, 3]).cvar_95) := by
  have h := var95_p95_cvar95_spec [(1:ℚ), 2, 3] (by decide)
  exact ⟨by decide, h.1, h.2.2⟩

/-- C9: for every non-empty `ale` sample array, the reported percentiles are
non-decreasing in their order:
`p10 ≤ p25 ≤ p50 ≤ p75 ≤ p90 ≤ p95 ≤ p99`. -/
theorem reported_percentiles_monotone (ale : List ℚ) (hne : ale ≠ []) :
    (computeStats ale).percentile_10 ≤ (computeStats ale).percentile_25 ∧
    (computeStats ale).percentile_25 ≤ (computeStats ale).percentile_50 ∧
    (computeStats ale).percentile_50 ≤ (computeStats ale).percentile_75 ∧
    (computeStats ale).percentile_75 ≤ (computeStats ale).percentile_90 ∧
    (computeStats ale).percentile_90 ≤ (computeStats ale).percentile_95 ∧
    (computeStats ale).percentile_95 ≤ (computeStats ale).percentile_99 := by
  refine ⟨?_, ?_, ?_, ?_, ?_, ?_⟩ <;>
    exact percentile_mono hne (by norm_num) (by norm_num) (by norm_num)

/-- C5: `add_scenario` evaluates all validation rules independently without
short-circuiting; membership of each tag in the aggregate list is equivalent
to that rule being violated; the scenario is accepted exactly when no rule
is violated (which covers the degenerate `low = medium = high` case); and on
any failure the single raised error carries the full aggregate list. -/
theorem scenario_validation_aggregate (c : Calculator) (sid desc : String)
    (tl tm th vl vm vh ll lm lh : ℚ) (asset ta le notes : String) :
    ((ValidationRule.tefOrder ∈ validationErrors tl tm th vl vm vh ll lm lh ↔
        ¬ (tl ≤ tm ∧ tm ≤ th)) ∧
     (ValidationRule.vulnOrder ∈ validationErrors tl tm th vl vm vh ll lm lh ↔
        ¬ (vl ≤ vm ∧ vm ≤ vh)) ∧
     (ValidationRule.vulnBounds ∈ validationErrors tl tm th vl vm vh ll lm lh ↔
        ¬ (0 ≤ vl ∧ vl ≤ 1 ∧ 0 ≤ vm ∧ vm ≤ 1 ∧ 0 ≤ vh ∧ vh ≤ 1)) ∧
     (ValidationRule.lossOrder ∈ validationErrors tl tm th vl vm vh ll lm lh ↔
        ¬ (ll ≤ lm ∧ lm ≤ lh)) ∧
     (ValidationRule.tefNonneg ∈ validationErrors tl tm th vl vm vh ll lm lh ↔
        (tl < 0 ∨ tm < 0 ∨ th < 0)) ∧
     (ValidationRule.lossNonneg ∈ validationErrors tl tm th vl vm vh ll lm lh ↔
        (ll < 0 ∨ lm < 0 ∨ lh < 0))) ∧
    ((∃ c', addScenario c sid desc tl tm th vl vm vh ll lm lh asset ta le notes =
        Except.ok c') ↔ validationErrors tl tm th vl vm vh ll lm lh = []) ∧
    (validationErrors tl tm th vl vm vh ll lm lh = [] ↔
      ((tl ≤ tm ∧ tm ≤ th) ∧ (vl ≤ vm ∧ vm ≤ vh) ∧
       (0 ≤ vl ∧ vl ≤ 1 ∧ 0 ≤ vm ∧ vm ≤ 1 ∧ 0 ≤ vh ∧ vh ≤ 1) ∧
       (ll ≤ lm ∧ lm ≤ lh) ∧
       ¬ (tl < 0 ∨ tm < 0 ∨ th < 0) ∧ ¬ (ll < 0 ∨ lm < 0 ∨ lh < 0))) ∧
    (validationErrors tl tm th vl vm vh ll lm lh ≠ [] →
      addScenario c sid desc tl tm th vl vm vh ll lm lh asset ta le notes =
        Except.error (SimError.validationFailed sid
          (validationErrors tl tm th vl vm vh ll lm lh))) := by
  refine ⟨⟨?_, ?_, ?_, ?_, ?_, ?_⟩, ?_, ?_, ?_⟩
  · simp [validationErrors, List.mem_append, mem_ite_singleton]
  · simp [validationErrors, List.mem_append, mem_ite_singleton]
  · simp [validationErrors, List.mem_append, mem_ite_singleton]
  · simp [validationErrors, List.mem_append, mem_ite_singleton]
  · simp [validationErrors, List.mem_append, mem_ite_singleton]
  · simp [validationErrors, List.mem_append, mem_ite_singleton]
  · constructor
    · rintro ⟨c', hc⟩
      by_cases he : (validationErrors tl tm th vl vm vh ll lm lh).isEmpty
      · exact List.isEmpty_iff.mp he
      · simp [addScenario, he] at hc
    · intro he
      simp [addScenario, he]
  · simp [validationErrors, List.append_eq_nil, ite_singleton_eq_nil]
  · intro hne
    have hb : (validationErrors tl tm th vl vm vh ll lm lh).isEmpty = false := by
      rcases hval : validationErrors tl tm th vl vm vh ll lm lh with _ | ⟨a, t⟩
      · exact absurd hval hne
      · rfl
    simp [addScenario, hb]

/-- Witness for C5 at a concrete input violating the TEF ordering rule. -/
theorem scenario_validation_aggregate_witness :
    (validationErrors 2 1 3 0 0 1 0 5 10 ≠ []) ∧
    (addScenario emptyCalc "S" "d" 2 1 3 0 0 1 0 5 10 "" "" "" "" =
      Except.error (SimError.validationFailed "S" (validationErrors 2 1 3 0 0 1 0 5 10))) :=
  ⟨by decide,
   (scenario_validation_aggregate emptyCalc "S" "d" 2 1 3 0 0 1 0 5 10 "" "" "" "").2.2.2
     (by decide)⟩

/-- C6 (amended): the `FAIRRiskCalculator` constructor accepts an iteration
count exactly when it lies in `[1000, 1000000]`; by contrast
`QuickRiskAnalyzer.analyze_risk` performs no iteration-count check at all —
it succeeds for every count whenever the three estimates are ordered. -/
theorem iteration_bounds_spec :
    (∀ (iterations : ℕ) (seed : Option ℕ) (ambient : ℕ),
      (∃ c, mkCalculator iterations seed ambient = Except.ok c) ↔
        (1000 ≤ iterations ∧ iterations ≤ 1000000)) ∧
    (∀ (P : RandomPrims) (tef vuln loss : Estimate) (iterations : ℕ)
        (seed : Option ℕ) (ambient : ℕ),
      tef.low ≤ tef.medium → tef.medium ≤ tef.high →
      vuln.low ≤ vuln.medium → vuln.medium ≤ vuln.high →
      loss.low ≤ loss.medium → loss.medium ≤ loss.high →
      (quickAnalyzeRisk P tef vuln loss iterations seed ambient).1.toOption.isSome = true) := by
  constructor
  · intro it seed amb
    unfold mkCalculator
    split_ifs with ha hb
    · simp
      omega
    · simp
      omega
    · simp
      omega
  · intro P t v l it seed amb h1 h2 h3 h4 h5 h6
    exact (quickAnalyzeRisk_ok P t v l it seed amb h1 h2 h3 h4 h5 h6).1

/-- Witness for C6's amended statement at concrete inputs. -/
theorem iteration_bounds_spec_witness :
    ((∃ c, mkCalculator 10000 none 0 = Except.ok c) ↔
      ((1000:ℕ) ≤ 10000 ∧ (10000:ℕ) ≤ 1000000)) ∧
    (¬ ∃ c, mkCalculator 500 none 0 = Except.ok c) ∧
    (¬ ∃ c, mkCalculator 2000000 none 0 = Except.ok c) ∧
    (estT.low ≤ estT.medium ∧ estT.medium ≤ estT.high ∧
     estV.low ≤ estV.medium ∧ estV.medium ≤ estV.high ∧
     estL.low ≤ estL.medium ∧ estL.medium ≤ estL.high) ∧
    ((quickAnalyzeRisk halfPrims estT estV estL 777 none 0).1.toOption.isSome = true) := by
  refine ⟨(iteration_bounds_spec.1 10000 none 0), ?_, ?_, ?_, ?_⟩
  · intro h
    have hb := (iteration_bounds_spec.1 500 none 0).mp h
    omega
  · intro h
    have hb := (iteration_bounds_spec.1 2000000 none 0).mp h
    omega
  · refine ⟨?_, ?_, ?_, ?_, ?_, ?_⟩ <;> norm_num [estT, estV, estL]
  · exact iteration_bounds_spec.2 halfPrims estT estV estL 777 none 0
      (by norm_num [estT]) (by norm_num [estT]) (by norm_num [estV]) (by norm_num [estV])
      (by norm_num [estL]) (by norm_num [estL])

/-- C6 counterexample: the claim says every simulation request outside
`[1000, 1000000]` iterations fails, but `QuickRiskAnalyzer.analyze_risk`
happily runs `iterations = 500`: it succeeds and produces 500 samples. -/
theorem quick_analyze_ignores_iteration_bounds :
    ((quickAnalyzeRisk halfPrims estT estV estL 500 none 0).1.toOption.isSome = true) ∧
    ((quickAnalyzeRisk halfPrims estT estV estL 500 none 0).1.toOption.map
        (fun r => r.samples.length) = some 500) := by
  exact quickAnalyzeRisk_ok halfPrims estT estV estL 500 none 0 (by norm_num [estT])
    (by norm_num [estT]) (by norm_num [estV]) (by norm_num [estV]) (by norm_num [estL])
    (by norm_num [estL])

/-- C3: in every successful simulation run the sample arrays satisfy
`lef[i] = tef[i] · vulnerability[i]` and `ale[i] = lef[i] · loss[i]` for
every index `i` below the iteration count. -/
theorem fair_equation_elementwise (P : RandomPrims) (c : Calculator)
    (sid dist : String) (i : ℕ) (hi : i < c.iterations) :
    (runSimulation P c sid dist).1.toOption.map
        (fun r => (r.lef_samples.getD i 0, r.ale_samples.getD i 0)) =
      (runSimulation P c sid dist).1.toOption.map
        (fun r => (r.tef_samples.getD i 0 * r.vuln_samples.getD i 0,
                   r.lef_samples.getD i 0 * r.loss_samples.getD i 0)) := by
  rcases hr : (runSimulation P c sid dist).1 with e | res
  · rfl
  · obtain ⟨scen, hfind, hsim⟩ := runSimulation_ok hr
    obtain ⟨st1, st2, st3, h1, h2, h3, hlef, hale, -, -, -, -⟩ := simulateScenario_ok hsim
    have len1 : res.tef_samples.length = c.iterations := sampleFactor_length h1
    have len2 : res.vuln_samples.length = c.iterations := sampleFactor_length h2
    have len3 : res.loss_samples.length = c.iterations := sampleFactor_length h3
    have lenlef : res.lef_samples.length = c.iterations := by
      rw [hlef, List.length_zipWith, len1, len2, min_self]
    have hz1 : i < (List.zipWith (· * ·) res.tef_samples res.vuln_samples).length := by
      rw [List.length_zipWith, len1, len2, min_self]
      exact hi
    have hz2 : i < (List.zipWith (· * ·) res.lef_samples res.loss_samples).length := by
      rw [List.length_zipWith, lenlef, len3, min_self]
      exact hi
    simp only [Except.toOption, Option.map_some]
    refine congrArg some (Prod.ext ?_ ?_)
    · show res.lef_samples.getD i 0 = res.tef_samples.getD i 0 * res.vuln_samples.getD i 0
      rw [hlef, List.getD_eq_getElem _ _ hz1, List.getElem_zipWith,
        List.getD_eq_getElem _ _ (len1 ▸ hi), List.getD_eq_getElem _ _ (len2 ▸ hi)]
    · show res.ale_samples.getD i 0 = res.lef_samples.getD i 0 * res.loss_samples.getD i 0
      rw [hale, List.getD_eq_getElem _ _ hz2, List.getElem_zipWith,
        List.getD_eq_getElem _ _ (lenlef ▸ hi), List.getD_eq_getElem _ _ (len3 ▸ hi)]

/-- Witness for C3 at a concrete input. -/
theorem fair_equation_elementwise_witness :
    (0 < smallCalc.iterations) ∧
    ((runSimulation halfPrims smallCalc "S1" "pert").1.toOption.map
        (fun r => (r.lef_samples.getD 0 0, r.ale_samples.getD 0 0)) =
      (runSimulation halfPrims smallCalc "S1" "pert").1.toOption.map
        (fun r => (r.tef_samples.getD 0 0 * r.vuln_samples.getD 0 0,
                   r.lef_samples.getD 0 0 * r.loss_samples.getD 0 0))) :=
  ⟨by decide, fair_equation_elementwise halfPrims smallCalc "S1" "pert" 0 (by decide)⟩

/-- Helper: the triangular sampler succeeds whenever the estimate is
ordered, returning the drawn array and the advanced state. -/
theorem tri_eq (P : RandomPrims) {low medium high : ℚ} (size state : ℕ)
    (h1 : low ≤ medium) (h2 : medium ≤ high) :
    triangularDistribution P low medium high size state =
      Except.ok ((List.range size).map (fun k => P.triangular low medium high (state + k)),
        state + size) := by
  unfold triangularDistribution
  rw [if_neg (not_not.mpr ⟨h1, h2⟩)]

/-- Helper: a triangular run of the app calculator succeeds and advances
the generator state by three array draws. -/
theorem appRun_triangular (P : RandomPrims) (tp vp lp : Estimate) (n st : ℕ)
    (h1 : tp.low ≤ tp.medium) (h2 : tp.medium ≤ tp.high)
    (h3 : vp.low ≤ vp.medium) (h4 : vp.medium ≤ vp.high)
    (h5 : lp.low ≤ lp.medium) (h6 : lp.medium ≤ lp.high) :
    (appRunSimulation P tp vp lp n "triangular" st).1.toOption.isSome = true ∧
    (appRunSimulation P tp vp lp n "triangular" st).2 = st + n + n + n := by
  have e1 := tri_eq P n st h1 h2
  have e2 := tri_eq P n (st + n) h3 h4
  have e3 := tri_eq P n (st + n + n) h5 h6
  simp only [appRunSimulation, if_neg (show ¬("triangular":String) = "pert" by decide),
    e1, e2, e3, Except.toOption]
  simp

/-- C7 (amended): `FAIRRiskCalculator.run_simulation` rejects a distribution
kind that is neither `"pert"` nor `"triangular"` with an error naming the
kind, leaving the calculator (cache and generator state) untouched — no
sampling happens; but the app's `FAIRCalculator.run_simulation` accepts any
such kind and silently samples with the triangular distribution. -/
theorem distribution_kind_check_spec :
    (∀ (P : RandomPrims) (c : Calculator) (sid dist : String) (scen : Scenario),
      c.scenarios.find? (fun s => s.id == sid) = some scen →
      dist ≠ "pert" → dist ≠ "triangular" →
      runSimulation P c sid dist = (Except.error (SimError.invalidDistribution dist), c)) ∧
    (∀ (P : RandomPrims) (tp vp lp : Estimate) (n : ℕ) (dist : String) (st : ℕ),
      dist ≠ "pert" →
      appRunSimulation P tp vp lp n dist st = appRunSimulation P tp vp lp n "triangular" st) := by
  constructor
  · intro P c sid dist scen hfind hd ht
    simp only [runSimulation, hfind, if_pos (And.intro hd ht)]
  · intro P tp vp lp n dist st hd
    simp only [appRunSimulation, if_neg hd,
      if_neg (show ¬("triangular":String) = "pert" by decide)]

/-- Witness for C7's amended statement at concrete inputs. -/
theorem distribution_kind_check_spec_witness :
    (smallCalc.scenarios.find? (fun s => s.id == "S1") = some scenA ∧
     ("gaussian" : String) ≠ "pert" ∧ ("gaussian" : String) ≠ "triangular") ∧
    (runSimulation halfPrims smallCalc "S1" "gaussian" =
      (Except.error (SimError.invalidDistribution "gaussian"), smallCalc)) ∧
    (appRunSimulation halfPrims estT estV estL 2 "gaussian" 0 =
      appRunSimulation halfPrims estT estV estL 2 "triangular" 0) := by
  refine ⟨⟨rfl, by decide, by decide⟩, ?_, ?_⟩
  · exact distribution_kind_check_spec.1 halfPrims smallCalc "S1" "gaussian" scenA rfl
      (by decide) (by decide)
  · exact distribution_kind_check_spec.2 halfPrims estT estV estL 2 "gaussian" 0 (by decide)

/-- C7 counterexample: requesting the unknown kind `"gaussian"` from the
app's `FAIRCalculator.run_simulation` does not fail — it succeeds, and the
generator state advances by three array draws, i.e. sampling is
performed (via the triangular branch). -/
theorem app_gaussian_runs_triangular :
    ((appRunSimulation halfPrims estT estV estL 2 "gaussian" 0).1.toOption.isSome = true) ∧
    ((appRunSimulation halfPrims estT estV estL 2 "gaussian" 0).2 = 6) := by
  have heq : appRunSimulation halfPrims estT estV estL 2 "gaussian" 0 =
      appRunSimulation halfPrims estT estV estL 2 "triangular" 0 := by
    simp only [appRunSimulation, if_neg (show ¬("gaussian":String) = "pert" by decide),
      if_neg (show ¬("triangular":String) = "pert" by decide)]
  rw [heq]
  have h := appRun_triangular halfPrims estT estV estL 2 0 (by norm_num [estT])
    (by norm_num [estT]) (by norm_num [estV]) (by norm_num [estV]) (by norm_num [estL])
    (by norm_num [estL])
  exact ⟨h.1, h.2⟩

/-- C8: when every factor of the simulated scenario is degenerate
(`low = medium = high`), the reported (squared) standard deviation is `0`
and the reported mean is exactly
`TEF · Vulnerability · LossMagnitude`. -/
theorem degenerate_scenario_stats (P : RandomPrims) (c : Calculator) (sid : String)
    (scen : Scenario)
    (hfind : c.scenarios.find? (fun s => s.id == sid) = some scen)
    (ht : scen.tef.low = scen.tef.medium ∧ scen.tef.medium = scen.tef.high)
    (hv : scen.vulnerability.low = scen.vulnerability.medium ∧
          scen.vulnerability.medium = scen.vulnerability.high)
    (hl : scen.loss_magnitude.low = scen.loss_magnitude.medium ∧
          scen.loss_magnitude.medium = scen.loss_magnitude.high)
    (hn : 0 < c.iterations) :
    (runSimulation P c sid "pert").1.toOption.map
        (fun r => (r.statistics.std_sq_loss, r.statistics.mean_loss)) =
      some (0, scen.tef.medium * scen.vulnerability.medium * scen.loss_magnitude.medium) := by
  have hp : ∀ (e : Estimate) (st : ℕ), e.low = e.medium → e.medium = e.high →
      sampleFactor P "pert" e c.iterations st =
        Except.ok (List.replicate c.iterations e.medium, st) := by
    intro e st he1 he2
    unfold sampleFactor pertDistribution
    rw [if_pos rfl, if_neg (not_not.mpr ⟨le_of_eq he1, le_of_eq he2⟩),
      if_pos (he1.trans he2).symm]
  have h1 := hp scen.tef c.rngState ht.1 ht.2
  have h2 := hp scen.vulnerability c.rngState hv.1 hv.2
  have h3 := hp scen.loss_magnitude c.rngState hl.1 hl.2
  have hcond : ¬(("pert":String) ≠ "pert" ∧ ("pert":String) ≠ "triangular") := by simp
  simp only [runSimulation, hfind, if_neg hcond, simulateScenario, h1, h2, h3,
    List.zipWith_replicate', Except.toOption, Option.map_some]
  have hmean : mean (List.replicate c.iterations
      (scen.tef.medium * scen.vulnerability.medium * scen.loss_magnitude.medium)) =
      scen.tef.medium * scen.vulnerability.medium * scen.loss_magnitude.medium :=
    mean_replicate (Nat.pos_iff_ne_zero.mp hn) _
  have hvar : sampleVariance (List.replicate c.iterations
      (scen.tef.medium * scen.vulnerability.medium * scen.loss_magnitude.medium)) = 0 :=
    sampleVariance_replicate _ _
  simp only [computeStats, hmean, hvar]
  rfl

/-- Witness for C8 at a concrete degenerate scenario. -/
theorem degenerate_scenario_stats_witness :
    (degCalc.scenarios.find? (fun s => s.id == "D") = some scenDeg ∧
     (scenDeg.tef.low = scenDeg.tef.medium ∧ scenDeg.tef.medium = scenDeg.tef.high) ∧
     (scenDeg.vulnerability.low = scenDeg.vulnerability.medium ∧
      scenDeg.vulnerability.medium = scenDeg.vulnerability.high) ∧
     (scenDeg.loss_magnitude.low = scenDeg.loss_magnitude.medium ∧
      scenDeg.loss_magnitude.medium = scenDeg.loss_magnitude.high) ∧
     0 < degCalc.iterations) ∧
    ((runSimulation halfPrims degCalc "D" "pert").1.toOption.map
        (fun r => (r.statistics.std_sq_loss, r.statistics.mean_loss)) =
      some (0, scenDeg.tef.medium * scenDeg.vulnerability.medium *
        scenDeg.loss_magnitude.medium)) :=
  ⟨⟨rfl, ⟨rfl, rfl⟩, ⟨rfl, rfl⟩, ⟨rfl, rfl⟩, by norm_num [degCalc]⟩,
   degenerate_scenario_stats halfPrims degCalc "D" scenDeg rfl ⟨rfl, rfl⟩ ⟨rfl, rfl⟩
     ⟨rfl, rfl⟩ (by norm_num [degCalc])⟩

/-- Witness for C9 at a concrete input. -/
theorem reported_percentiles_monotone_witness :
    ([(3:ℚ), 1, 2] ≠ []) ∧
    ((computeStats [(3:ℚ), 1, 2]).percentile_10 ≤ (computeStats [(3:ℚ), 1, 2]).percentile_25 ∧
     (computeStats [(3:ℚ), 1, 2]).percentile_25 ≤ (computeStats [(3:ℚ), 1, 2]).percentile_50 ∧
     (computeStats [(3:ℚ), 1, 2]).percentile_50 ≤ (computeStats [(3:ℚ), 1, 2]).percentile_75 ∧
     (computeStats [(3:ℚ), 1, 2]).percentile_75 ≤ (computeStats [(3:ℚ), 1, 2]).percentile_90 ∧
     (computeStats [(3:ℚ), 1, 2]).percentile_90 ≤ (computeStats [(3:ℚ), 1, 2]).percentile_95 ∧
     (computeStats [(3:ℚ), 1, 2]).percentile_95 ≤ (computeStats [(3:ℚ), 1, 2]).percentile_99) :=
  ⟨by decide, reported_percentiles_monotone [(3:ℚ), 1, 2] (by decide)⟩


/-- C1 (amended): seeding happens at construction, so two runs on freshly
seeded engines agree.  Two engines constructed with the same seed are equal
regardless of the ambient generator state, and after adding the same
scenario to each, a simulation run on one equals the run on the other;
likewise `QuickRiskAnalyzer.analyze_risk`, which seeds on every call, is
independent of the ambient generator state when a seed is given. -/
theorem seeded_run_determinism :
    (∀ (P : RandomPrims) (iters seed amb1 amb2 : ℕ) (c1 c2 : Calculator),
      mkCalculator iters (some seed) amb1 = Except.ok c1 →
      mkCalculator iters (some seed) amb2 = Except.ok c2 →
      ∀ (sid desc : String) (tl tm th vl vm vh ll lm lh : ℚ)
        (asset ta le notes : String) (d1 d2 : Calculator) (dist : String),
        addScenario c1 sid desc tl tm th vl vm vh ll lm lh asset ta le notes =
          Except.ok d1 →
        addScenario c2 sid desc tl tm th vl vm vh ll lm lh asset ta le notes =
          Except.ok d2 →
        runSimulation P d1 sid dist = runSimulation P d2 sid dist) ∧
    (∀ (P : RandomPrims) (tef vuln loss : Estimate) (iterations seed amb1 amb2 : ℕ),
      quickAnalyzeRisk P tef vuln loss iterations (some seed) amb1 =
        quickAnalyzeRisk P tef vuln loss iterations (some seed) amb2) := by
  constructor
  · intro P iters seed amb1 amb2 c1 c2 h1 h2 sid desc tl tm th vl vm vh ll lm lh
      asset ta le notes d1 d2 dist ha1 ha2
    have hc : c1 = c2 := by
      unfold mkCalculator at h1 h2
      split_ifs at h1 h2
      simp only [Except.ok.injEq] at h1 h2
      rw [← h1, ← h2]
    subst hc
    rw [ha1] at ha2
    simp only [Except.ok.injEq] at ha2
    subst ha2
    rfl
  · intro P t v l it seed amb1 amb2
    rfl

/-- Witness for C1's amended statement at concrete inputs: two engines
seeded with `5` under different ambient states `3` and `9` coincide, their
runs after adding the same scenario agree, and the quick analyzer with seed
`5` is ambient-independent. -/
theorem seeded_run_determinism_witness :
    (mkCalculator 1000 (some 5) 3 = Except.ok cSeed5) ∧
    (mkCalculator 1000 (some 5) 9 = Except.ok cSeed5) ∧
    (addScenario cSeed5 "S1" "demo" 0 1 2 0 0 1 0 10 20 "" "" "" "" =
      Except.ok dSeed5) ∧
    (runSimulation halfPrims dSeed5 "S1" "pert" =
      runSimulation halfPrims dSeed5 "S1" "pert") ∧
    (quickAnalyzeRisk halfPrims estT estV estL 1000 (some 5) 3 =
      quickAnalyzeRisk halfPrims estT estV estL 1000 (some 5) 9) := by
  refine ⟨rfl, rfl, rfl, ?_, ?_⟩
  · exact seeded_run_determinism.1 halfPrims 1000 5 3 9 cSeed5 cSeed5 rfl rfl "S1" "demo"
      0 1 2 0 0 1 0 10 20 "" "" "" "" dSeed5 dSeed5 "pert" rfl rfl
  · exact seeded_run_determinism.2 halfPrims estT estV estL 1000 5 3 9

/-- Helper: a `"pert"` run over a found scenario with non-degenerate,
ordered factors: its first TEF sample, and the scenario list, iteration
count and generator state of the returned calculator. -/
theorem runSimulation_pert_head (P : RandomPrims) (c : Calculator) (sid : String)
    (scen : Scenario)
    (hfind : c.scenarios.find? (fun s => s.id == sid) = some scen)
    (hn : 0 < c.iterations)
    (ht1 : scen.tef.low ≤ scen.tef.medium) (ht2 : scen.tef.medium ≤ scen.tef.high)
    (htne : scen.tef.high ≠ scen.tef.low)
    (hv1 : scen.vulnerability.low ≤ scen.vulnerability.medium)
    (hv2 : scen.vulnerability.medium ≤ scen.vulnerability.high)
    (hvne : scen.vulnerability.high ≠ scen.vulnerability.low)
    (hl1 : scen.loss_magnitude.low ≤ scen.loss_magnitude.medium)
    (hl2 : scen.loss_magnitude.medium ≤ scen.loss_magnitude.high)
    (hlne : scen.loss_magnitude.high ≠ scen.loss_magnitude.low) :
    ((runSimulation P c sid "pert").1.toOption.map (fun r => r.tef_samples.getD 0 0) =
      some (scen.tef.low +
        P.beta (1 + 4 * (scen.tef.medium - scen.tef.low) / (scen.tef.high - scen.tef.low))
          (1 + 4 * (scen.tef.high - scen.tef.medium) / (scen.tef.high - scen.tef.low))
          c.rngState * (scen.tef.high - scen.tef.low))) ∧
    (runSimulation P c sid "pert").2.scenarios = c.scenarios ∧
    (runSimulation P c sid "pert").2.iterations = c.iterations ∧
    (runSimulation P c sid "pert").2.rngState =
      c.rngState + c.iterations + c.iterations + c.iterations := by
  have hpert : ∀ (e : Estimate) (st : ℕ),
      e.low ≤ e.medium → e.medium ≤ e.high → e.high ≠ e.low →
      sampleFactor P "pert" e c.iterations st =
        Except.ok ((List.range c.iterations).map
          (fun k => e.low + P.beta (1 + 4 * (e.medium - e.low) / (e.high - e.low))
            (1 + 4 * (e.high - e.medium) / (e.high - e.low)) (st + k) * (e.high - e.low)),
          st + c.iterations) := by
    intro e st he1 he2 hene
    unfold sampleFactor pertDistribution
    rw [if_pos rfl, if_neg (not_not.mpr (And.intro he1 he2)), if_neg hene]
  have h1 := hpert scen.tef c.rngState ht1 ht2 htne
  have h2 := hpert scen.vulnerability (c.rngState + c.iterations) hv1 hv2 hvne
  have h3 := hpert scen.loss_magnitude (c.rngState + c.iterations + c.iterations) hl1 hl2 hlne
  have hcond : ¬(("pert":String) ≠ "pert" ∧ ("pert":String) ≠ "triangular") := by simp
  refine ⟨?_, ?_, ?_, ?_⟩ <;>
    simp only [runSimulation, hfind, if_neg hcond, simulateScenario, h1, h2, h3,
      Except.toOption, Option.map_some', Option.some.injEq]
  rw [List.getD_eq_getElem _ _ (by simpa using hn), List.getElem_map, List.getElem_range]
  simp

/-- C1 counterexample: on one engine instance seeded at construction, two
successive `run_simulation` calls with identical arguments give different
TEF sample arrays — the first draw of the first run is `0`, the first draw
of the second run is `1` — because the generator state advances across
calls instead of being re-seeded. -/
theorem second_run_on_same_engine_differs :
    ((runSimulation stepPrims demoCalc1000 "S1" "pert").1.toOption.map
        (fun r => r.tef_samples.getD 0 0) = some 0) ∧
    ((runSimulation stepPrims ((runSimulation stepPrims demoCalc1000 "S1" "pert").2)
        "S1" "pert").1.toOption.map (fun r => r.tef_samples.getD 0 0) = some 1) ∧
    ((0:ℚ) ≠ 1) := by
  have hordT1 : scenA.tef.low ≤ scenA.tef.medium := by norm_num [scenA, estT]
  have hordT2 : scenA.tef.medium ≤ scenA.tef.high := by norm_num [scenA, estT]
  have hordT3 : scenA.tef.high ≠ scenA.tef.low := by norm_num [scenA, estT]
  have hordV1 : scenA.vulnerability.low ≤ scenA.vulnerability.medium := by
    norm_num [scenA, estV]
  have hordV2 : scenA.vulnerability.medium ≤ scenA.vulnerability.high := by
    norm_num [scenA, estV]
  have hordV3 : scenA.vulnerability.high ≠ scenA.vulnerability.low := by
    norm_num [scenA, estV]
  have hordL1 : scenA.loss_magnitude.low ≤ scenA.loss_magnitude.medium := by
    norm_num [scenA, estL]
  have hordL2 : scenA.loss_magnitude.medium ≤ scenA.loss_magnitude.high := by
    norm_num [scenA, estL]
  have hordL3 : scenA.loss_magnitude.high ≠ scenA.loss_magnitude.low := by
    norm_num [scenA, estL]
  have h1 := runSimulation_pert_head stepPrims demoCalc1000 "S1" scenA rfl
    (by norm_num [demoCalc1000]) hordT1 hordT2 hordT3 hordV1 hordV2 hordV3
    hordL1 hordL2 hordL3
  obtain ⟨hval1, hsc, hit, hst⟩ := h1
  have hfind2 : ((runSimulation stepPrims demoCalc1000 "S1" "pert").2).scenarios.find?
      (fun s => s.id == "S1") = some scenA := by
    rw [hsc]
    rfl
  have hn2 : 0 < ((runSimulation stepPrims demoCalc1000 "S1" "pert").2).iterations := by
    rw [hit]
    norm_num [demoCalc1000]
  have h2 := runSimulation_pert_head stepPrims
    ((runSimulation stepPrims demoCalc1000 "S1" "pert").2) "S1" scenA hfind2 hn2
    hordT1 hordT2 hordT3 hordV1 hordV2 hordV3 hordL1 hordL2 hordL3
  refine ⟨?_, ?_, by norm_num⟩
  · rw [hval1]
    norm_num [stepPrims, demoCalc1000, scenA, estT]
  · rw [h2.1, hst]
    norm_num [stepPrims, demoCalc1000, scenA, estT]

/-- C10: when several stored scenarios share an identifier, a simulation
request by that identifier always uses the earliest-added matching scenario
(the first match in insertion order): the produced result is the one of a
calculator holding only that first match.  The result cache is keyed by
identifier: entries for other identifiers are untouched, and the entry for
the requested identifier holds the new result after a successful run and the
previous entry otherwise. -/
theorem duplicate_id_first_match_and_cache (P : RandomPrims) (c : Calculator)
    (sid dist : String) (pre rest : List Scenario) (s1 : Scenario)
    (hsplit : c.scenarios = pre ++ s1 :: rest)
    (hpre : ∀ x ∈ pre, x.id ≠ sid) (hid : s1.id = sid) :
    ((runSimulation P c sid dist).1 =
      (runSimulation P { c with scenarios := [s1] } sid dist).1) ∧
    (∀ k, k ≠ sid →
      (runSimulation P c sid dist).2.simulation_results k = c.simulation_results k) ∧
    ((runSimulation P c sid dist).2.simulation_results sid =
      match (runSimulation P c sid dist).1 with
      | Except.ok r => some r
      | Except.error _ => c.simulation_results sid) := by
  have hfind : c.scenarios.find? (fun s => s.id == sid) = some s1 := by
    rw [hsplit, List.find?_append]
    have hnone : pre.find? (fun s => s.id == sid) = none := by
      rw [List.find?_eq_none]
      intro x hx
      simpa using hpre x hx
    rw [hnone]
    simp [List.find?_cons, hid]
  have hfind1 : (([s1] : List Scenario).find? (fun s => s.id == sid)) = some s1 := by
    simp [List.find?_cons, hid]
  refine ⟨?_, ?_, ?_⟩
  · by_cases hcond : dist ≠ "pert" ∧ dist ≠ "triangular"
    · simp only [runSimulation, hfind, hfind1, if_pos hcond]
    · simp only [runSimulation, hfind, hfind1, if_neg hcond]
      rcases hsim : (simulateScenario P sid c.iterations c.rngState dist s1).1 with e | r <;>
        simp [hsim]
  · intro k hk
    by_cases hcond : dist ≠ "pert" ∧ dist ≠ "triangular"
    · simp only [runSimulation, hfind, if_pos hcond]
    · simp only [runSimulation, hfind, if_neg hcond]
      rcases hsim : (simulateScenario P sid c.iterations c.rngState dist s1).1 with e | r <;>
        simp [hsim, hk]
  · by_cases hcond : dist ≠ "pert" ∧ dist ≠ "triangular"
    · simp only [runSimulation, hfind, if_pos hcond]
    · simp only [runSimulation, hfind, if_neg hcond]
      rcases hsim : (simulateScenario P sid c.iterations c.rngState dist s1).1 with e | r <;>
        simp [hsim]

/-- Witness for C10 at a concrete calculator holding two scenarios with the
same identifier. -/
theorem duplicate_id_first_match_and_cache_witness :
    (dupCalc.scenarios = [] ++ scenA :: [scenA2]) ∧ (scenA.id = "S1") ∧
    ((runSimulation halfPrims dupCalc "S1" "pert").1 =
      (runSimulation halfPrims { dupCalc with scenarios := [scenA] } "S1" "pert").1) ∧
    ((runSimulation halfPrims dupCalc "S1" "pert").2.simulation_results "S1" =
      match (runSimulation halfPrims dupCalc "S1" "pert").1 with
      | Except.ok r => some r
      | Except.error _ => dupCalc.simulation_results "S1") := by
  have h := duplicate_id_first_match_and_cache halfPrims dupCalc "S1" "pert" [] [scenA2]
    scenA rfl (by simp) rfl
  exact ⟨rfl, rfl, h.1, h.2.2⟩

end FAIR
